import Mathlib

/-!
# Shallow embedding of `cashu/lightning/nwc.py` (NWCWallet Lightning backend)

The adapter's collaborators (NWC protocol client, exchange-rate provider,
bolt11 decoder, fee-reserve policy) are external to the source file and are
modelled as explicit parameters.  Python exceptions are modelled by the
`Except Exc` monad: a collaborator call returns `Except Exc α`, and each
adapter operation returns `Except Exc Result`, where `.error` means the
Python method would raise.  `try/except` blocks become explicit matches on
the `Except` value.  Python's `//` on `int` is floor division, `Int.fdiv`.
-/

namespace Nutshell

/-- Modelled from the spec: the closed enumeration of accounting units
(`Unit` in `cashu/core/base.py`, not part of the analysed source file):
satoshi, millisatoshi, and fiat units; the adapter supports `sat`, `usd`. -/
inductive Unit where
  | sat
  | msat
  | usd
  | eur
deriving DecidableEq, Repr

/-- Modelled from the spec: Python enum lookup by name `Unit[name]`,
raising a `KeyError` for an unknown name. -/
def Unit.ofName (s : String) : Except String Unit :=
  if s = "sat" then .ok .sat
  else if s = "msat" then .ok .msat
  else if s = "usd" then .ok .usd
  else if s = "eur" then .ok .eur
  else .error ("KeyError: " ++ s)

/-- Python exceptions, as far as the adapter's handlers distinguish them:
`Nip47Error` (the protocol-level error class) versus any other `Exception`.
Each carries its `str(exc)` rendering. -/
inductive Exc where
  | nip47 (msg : String)
  | generic (msg : String)
deriving DecidableEq, Repr

/-- Modelled from the spec: `Amount` — a (unit, integer magnitude) pair in
the smallest denomination of its unit (`cashu/core/base.py`). -/
structure Amount where
  unit : Unit
  amount : Int
deriving DecidableEq, Repr

/-- Modelled from the spec: `Amount.to(to_unit, round)` — conversion between
units with an explicit rounding direction.  Same-unit conversion is the
identity; sat→msat multiplies by 1000 (exact); msat→sat divides by 1000
rounding up (`round="up"`) or down (`round="down"`), and raises without a
rounding direction when inexactness is possible; any other pair raises. -/
def Amount.to (a : Amount) (to_unit : Unit) (round : Option String) :
    Except Exc Amount :=
  if a.unit = to_unit then .ok a
  else
    match a.unit, to_unit with
    | .sat, .msat => .ok ⟨.msat, a.amount * 1000⟩
    | .msat, .sat =>
      match round with
      | some "up" => .ok ⟨.sat, -((-a.amount).fdiv 1000)⟩
      | some "down" => .ok ⟨.sat, a.amount.fdiv 1000⟩
      | _ => .error (.generic "Cannot convert msat to sat without rounding")
    | _, _ => .error (.generic "Cannot convert units")

/-- `StatusResponse` from `cashu/lightning/base.py` as used by the adapter. -/
structure StatusResponse where
  error_message : Option String
  balance : Int
deriving DecidableEq, Repr

/-- `InvoiceResponse` from `cashu/lightning/base.py` as used by the adapter. -/
structure InvoiceResponse where
  ok : Bool
  checking_id : Option String
  payment_request : Option String
  error_message : Option String
deriving DecidableEq, Repr

/-- `PaymentResponse` from `cashu/lightning/base.py` as used by the adapter. -/
structure PaymentResponse where
  ok : Bool
  checking_id : Option String
  fee : Option Amount
  preimage : Option String
  error_message : Option String
deriving DecidableEq, Repr

/-- `PaymentStatus` from `cashu/lightning/base.py` as used by the adapter. -/
structure PaymentStatus where
  paid : Bool
deriving DecidableEq, Repr

/-- `PaymentQuoteResponse` from `cashu/lightning/base.py`. -/
structure PaymentQuoteResponse where
  checking_id : String
  fee : Amount
  amount : Amount
deriving DecidableEq, Repr

/-- Modelled from the spec: `MeltQuote` (caller-owned) — the adapter reads
only the payment-request string and the checking identifier. -/
structure MeltQuote where
  request : String
  checking_id : String
deriving DecidableEq, Repr

/-- Modelled from the spec: `PostMeltQuoteRequest` — payment-request string,
unit name, and the optional multi-path-payment override amount. -/
structure PostMeltQuoteRequest where
  request : String
  unit : String
  is_mpp : Bool
  mpp_amount : Int
deriving DecidableEq, Repr

/-- `Nip47MakeInvoiceRequest(amount=...)`: amount in millisatoshis. -/
structure Nip47MakeInvoiceRequest where
  amount : Int
deriving DecidableEq, Repr

/-- `Nip47PayInvoiceRequest(invoice=...)`: the bolt11 payment request. -/
structure Nip47PayInvoiceRequest where
  invoice : String
deriving DecidableEq, Repr

/-- `Nip47LookupInvoiceRequest(payment_hash=...)`. -/
structure Nip47LookupInvoiceRequest where
  payment_hash : String
deriving DecidableEq, Repr

/-- Response of the protocol client's `get_info`: the supported method set. -/
structure Nip47InfoResponse where
  methods : List String
deriving DecidableEq, Repr

/-- Response of the protocol client's `get_balance`: millisatoshi balance. -/
structure Nip47BalanceResponse where
  balance : Int
deriving DecidableEq, Repr

/-- Response of the protocol client's `create_invoice`. -/
structure Nip47CreateInvoiceResponse where
  payment_hash : String
  invoice : String
deriving DecidableEq, Repr

/-- Response of the protocol client's `pay_invoice`: the preimage. -/
structure Nip47PayInvoiceResponse where
  preimage : String
deriving DecidableEq, Repr

/-- Response of the protocol client's `lookup_invoice`: optional preimage
and fees paid in millisatoshis. -/
structure Nip47LookupInvoiceResponse where
  preimage : Option String
  fees_paid : Int
deriving DecidableEq, Repr

/-- One behaviour of the external NWC protocol client (`NWCClient`): every
call either returns a response or raises. -/
structure NWCClientModel where
  get_info : Except Exc Nip47InfoResponse
  get_balance : Except Exc Nip47BalanceResponse
  create_invoice : Nip47MakeInvoiceRequest → Except Exc Nip47CreateInvoiceResponse
  pay_invoice : Nip47PayInvoiceRequest → Except Exc Nip47PayInvoiceResponse
  lookup_invoice : Nip47LookupInvoiceRequest → Except Exc Nip47LookupInvoiceResponse

/-- One behaviour of the external exchange-rate provider
(`MempoolExchangeRateProvider`): `to_sats`/`from_sats`, both fallible. -/
structure FxModel where
  to_sats : Int → Unit → Except Exc Int
  from_sats : Int → Unit → Except Exc Int

/-- A decoded bolt11 invoice as the adapter reads it: optional amount in
millisatoshis and the payment hash (`bolt11.decode`, external). -/
structure Bolt11Invoice where
  amount_msat : Option Int
  payment_hash : String
deriving DecidableEq, Repr

/-- One behaviour of the external bolt11 decoder: `decode` may raise on a
malformed payment request. -/
structure DecoderModel where
  decode : String → Except Exc Bolt11Invoice

instance {ε α : Type} [DecidableEq ε] [DecidableEq α] : DecidableEq (Except ε α) :=
  fun a b =>
    match a, b with
    | .ok x, .ok y =>
      if h : x = y then .isTrue (by rw [h]) else .isFalse (by simp [h])
    | .error x, .error y =>
      if h : x = y then .isTrue (by rw [h]) else .isFalse (by simp [h])
    | .ok _, .error _ => .isFalse (by simp)
    | .error _, .ok _ => .isFalse (by simp)

/-- `required_nip47_methods` from the source. -/
def required_nip47_methods : List String :=
  ["get_info", "get_balance", "make_invoice", "pay_invoice", "lookup_invoice"]

/-- `NWCWallet.supported_units = {Unit.sat, Unit.usd}` from the source. -/
def supported_units : List Unit := [Unit.sat, Unit.usd]

/-- Modelled from the spec: `LightningBackend.assert_unit_supported` raises a
construction-time error when the unit is outside the supported set. -/
def assert_unit_supported (unit : Unit) : Except Exc PUnit :=
  if unit ∈ supported_units then .ok PUnit.unit
  else .error (.generic "Unsupported unit")

/-- The adapter's own state: the configured accounting unit
(the protocol-client handle and rate provider are passed per call). -/
structure NWCWallet where
  unit : Unit
deriving DecidableEq, Repr

/-- `NWCWallet.__init__`: asserts the unit is supported, then stores it. -/
def NWCWallet.init (unit : Unit) : Except Exc NWCWallet := do
  let _ ← assert_unit_supported unit
  pure ⟨unit⟩

/-- `try: body except Nip47Error as exc: onNip47 except Exception as exc:
onGeneric` — both handlers return normally, so the wrapped computation
never raises. -/
def handle (body : Except Exc α) (onNip47 : String → α) (onGeneric : String → α) :
    Except Exc α :=
  match body with
  | .ok a => .ok a
  | .error (.nip47 m) => .ok (onNip47 m)
  | .error (.generic m) => .ok (onGeneric m)

/-- `try: body except Exception as exc: onExc` — `Nip47Error` is a subclass
of `Exception`, so a single `except Exception` handler catches both. -/
def handleAll (body : Except Exc α) (onExc : String → α) : Except Exc α :=
  match body with
  | .ok a => .ok a
  | .error (.nip47 m) => .ok (onExc m)
  | .error (.generic m) => .ok (onExc m)

/-- `NWCWallet.status`. -/
def NWCWallet.status (w : NWCWallet) (client : NWCClientModel) (fx : FxModel) :
    Except Exc StatusResponse :=
  handle
    (do
      let info ← client.get_info
      if ¬ (required_nip47_methods.all (fun m => info.methods.contains m)) then
        pure ⟨some ("NWC does not support all required methods. Supports: "
                ++ toString info.methods), 0⟩
      else do
        let res ← client.get_balance
        let balance_msat := res.balance
        let balance ← fx.from_sats (balance_msat.fdiv 1000) w.unit
        pure ⟨none, balance⟩)
    (fun m => ⟨some m, 0⟩)
    (fun m =>
      ⟨some ("Failed to connect to lightning wallet via NWC due to: " ++ m), 0⟩)

/-- `NWCWallet._amt_to_sat`. -/
def NWCWallet.amt_to_sat (w : NWCWallet) (fx : FxModel) (amt : Int) :
    Except Exc Int :=
  fx.to_sats amt w.unit

/-- `NWCWallet.create_invoice`.  `memo`, `description_hash` and
`unhashed_description` are accepted but unused, as in the source. -/
def NWCWallet.create_invoice (w : NWCWallet) (client : NWCClientModel)
    (fx : FxModel) (amount : Amount) (memo : Option String)
    (description_hash : Option (List Nat)) (unhashed_description : Option String) :
    Except Exc InvoiceResponse :=
  handle
    (do
      let amount_sat ← w.amt_to_sat fx amount.amount
      let res ← client.create_invoice ⟨amount_sat * 1000⟩
      pure ⟨true, some res.payment_hash, some res.invoice, none⟩)
    (fun m => ⟨false, none, none, some m⟩)
    (fun m => ⟨false, none, none, some ("Failed to create invoice due to: " ++ m)⟩)

/-- `NWCWallet.pay_invoice`.  The payment call goes to the protocol client
with only the quote's request string; the inner `try` around
`lookup_invoice` defaults the fee to zero; a strictly positive floored
satoshi fee is converted via the rate provider inside the outer `try`. -/
def NWCWallet.pay_invoice (w : NWCWallet) (client : NWCClientModel)
    (fx : FxModel) (quote : MeltQuote) (fee_limit_msat : Int) :
    Except Exc PaymentResponse :=
  handle
    (do
      let pay_invoice_res ← client.pay_invoice ⟨quote.request⟩
      let fees : Int :=
        match client.lookup_invoice ⟨quote.checking_id⟩ with
        | .ok invoice => invoice.fees_paid.fdiv 1000
        | .error _ => 0
      let fees ← if fees > 0 then fx.from_sats fees w.unit else pure fees
      pure ⟨true, none, some ⟨w.unit, fees⟩, some pay_invoice_res.preimage, none⟩)
    (fun m => ⟨false, none, none, none, some m⟩)
    (fun m => ⟨false, none, none, none, some ("Failed to pay invoice due to: " ++ m)⟩)

/-- `NWCWallet.get_invoice_status`. -/
def NWCWallet.get_invoice_status (w : NWCWallet) (client : NWCClientModel)
    (checking_id : String) : Except Exc PaymentStatus :=
  handleAll
    (do
      let res ← client.lookup_invoice ⟨checking_id⟩
      let paid := res.preimage.isSome && res.preimage != some ""
      pure ⟨paid⟩)
    (fun _ => ⟨false⟩)

/-- `NWCWallet.get_payment_status` — textually identical body to
`get_invoice_status` in the source. -/
def NWCWallet.get_payment_status (w : NWCWallet) (client : NWCClientModel)
    (checking_id : String) : Except Exc PaymentStatus :=
  handleAll
    (do
      let res ← client.lookup_invoice ⟨checking_id⟩
      let paid := res.preimage.isSome && res.preimage != some ""
      pure ⟨paid⟩)
    (fun _ => ⟨false⟩)

/-- `assert invoice_obj.amount_msat, "invoice has no amount."` — Python
truthiness: `None` and `0` both fail the assertion (`AssertionError`). -/
def assert_amount (amount_msat : Option Int) : Except Exc PUnit :=
  match amount_msat with
  | none => .error (.generic "invoice has no amount.")
  | some a => if a = 0 then .error (.generic "invoice has no amount.") else .ok PUnit.unit

/-- `NWCWallet.get_payment_quote`.  Unlike the other operations, no
`try/except` wraps the body: decoder failures, the missing-amount
assertion, enum lookup and rate-provider failures all propagate.
`fee_reserve` (external policy, `cashu/core/helpers.py`) maps a
millisatoshi amount to a millisatoshi reserve fee. -/
def NWCWallet.get_payment_quote (w : NWCWallet) (fx : FxModel)
    (dec : DecoderModel) (fee_reserve : Int → Int)
    (melt_quote : PostMeltQuoteRequest) : Except Exc PaymentQuoteResponse := do
  let amount : Option Amount ←
    if melt_quote.is_mpp then
      match Unit.ofName melt_quote.unit with
      | .ok u => Except.ok (some (Amount.mk u melt_quote.mpp_amount))
      | .error m => Except.error (Exc.generic m)
    else Except.ok none
  let invoice_obj ← dec.decode melt_quote.request
  let _ ← assert_amount invoice_obj.amount_msat
  let amount_msat : Int ←
    match amount with
    | some a => do
      let a_msat ← Amount.to a Unit.msat none
      pure a_msat.amount
    | none => pure (invoice_obj.amount_msat.getD 0)
  let fees_msat := fee_reserve amount_msat
  let amount_unit ← fx.from_sats (amount_msat.fdiv 1000) w.unit
  let fees_unit ← fx.from_sats (fees_msat.fdiv 1000) w.unit
  let amount2 : Amount := ⟨w.unit, amount_unit⟩
  let fees2 : Amount := ⟨w.unit, fees_unit⟩
  let fee_conv ← fees2.to w.unit (some "up")
  let amount_conv ← amount2.to w.unit (some "up")
  pure ⟨invoice_obj.payment_hash, fee_conv, amount_conv⟩

/-! ## Concrete collaborator behaviours, used to evaluate the model -/

/-- A rate provider for the `sat` unit: both directions are the identity. -/
def fxId : FxModel := ⟨fun n _ => Except.ok n, fun n _ => Except.ok n⟩

/-- A rate provider whose fetch always fails. -/
def fxDown : FxModel :=
  ⟨fun _ _ => Except.error (Exc.generic "rate fetch failed"),
   fun _ _ => Except.error (Exc.generic "rate fetch failed")⟩

/-- A fully cooperating protocol client. -/
def clientAllOk : NWCClientModel :=
  ⟨Except.ok ⟨required_nip47_methods⟩,
   Except.ok ⟨5000⟩,
   fun _ => Except.ok ⟨"payhash1", "lnbcinvoice1"⟩,
   fun _ => Except.ok ⟨"preimage1"⟩,
   fun _ => Except.ok ⟨some "preimage1", 2500⟩⟩

/-- A client whose `get_info` omits `pay_invoice` from the method set. -/
def clientMissingPay : NWCClientModel :=
  { clientAllOk with
    get_info := Except.ok ⟨["get_info", "get_balance", "make_invoice",
                            "lookup_invoice"]⟩ }

/-- A client whose `lookup_invoice` always raises. -/
def clientLookupFails : NWCClientModel :=
  { clientAllOk with
    lookup_invoice := fun _ => Except.error (Exc.generic "lookup down") }

/-- A client reporting 2000 msat of fees paid on lookup. -/
def clientFeePaid2000 : NWCClientModel :=
  { clientAllOk with
    lookup_invoice := fun _ => Except.ok ⟨some "preimage1", 2000⟩ }

/-- A client reporting 999 msat of fees paid on lookup. -/
def clientFeePaid999 : NWCClientModel :=
  { clientAllOk with
    lookup_invoice := fun _ => Except.ok ⟨some "preimage1", 999⟩ }

/-- A client whose payment response echoes the full request it received:
its preimage is exactly the invoice field of the `Nip47PayInvoiceRequest`. -/
def clientEcho : NWCClientModel :=
  { clientAllOk with pay_invoice := fun req => Except.ok ⟨req.invoice⟩ }

/-- A decoder returning a fixed invoice of 1500 msat, payment hash `h1500`. -/
def decInvoice1500 : DecoderModel := ⟨fun _ => Except.ok ⟨some 1500, "h1500"⟩⟩

/-- A concrete melt-quote request (non-MPP). -/
def mq1500 : PostMeltQuoteRequest := ⟨"lnbc15u", "sat", false, 0⟩

/-- A concrete caller-owned melt quote. -/
def meltQuote1 : MeltQuote := ⟨"lnbc15u", "cid1"⟩

/-! ## Theorems -/

/-! ### Simp lemmas for the `Except` monad -/

@[simp] theorem ok_bind {α β : Type} (a : α) (f : α → Except Exc β) :
    (Except.ok a : Except Exc α) >>= f = f a := rfl

@[simp] theorem error_bind {α β : Type} (e : Exc) (f : α → Except Exc β) :
    (Except.error e : Except Exc α) >>= f = Except.error e := rfl

@[simp] theorem pure_eq_ok {α : Type} (a : α) :
    (pure a : Except Exc α) = Except.ok a := rfl

@[simp] theorem handle_ok {α : Type} (a : α) (f g : String → α) :
    handle (Except.ok a) f g = Except.ok a := rfl

@[simp] theorem handle_error_nip47 {α : Type} (m : String) (f g : String → α) :
    handle (Except.error (Exc.nip47 m)) f g = Except.ok (f m) := rfl

@[simp] theorem handle_error_generic {α : Type} (m : String) (f g : String → α) :
    handle (Except.error (Exc.generic m)) f g = Except.ok (g m) := rfl

@[simp] theorem handleAll_ok {α : Type} (a : α) (f : String → α) :
    handleAll (Except.ok a) f = Except.ok a := rfl

theorem handleAll_error {α : Type} (e : Exc) (f : String → α) :
    ∃ m, handleAll (Except.error e) f = Except.ok (f m) := by
  cases e <;> exact ⟨_, rfl⟩

/-- Evaluation of the constructor on each of the four units. -/
theorem init_eval :
    NWCWallet.init Unit.sat = Except.ok ⟨Unit.sat⟩ ∧
    NWCWallet.init Unit.usd = Except.ok ⟨Unit.usd⟩ ∧
    NWCWallet.init Unit.msat = Except.error (Exc.generic "Unsupported unit") ∧
    NWCWallet.init Unit.eur = Except.error (Exc.generic "Unsupported unit") := by
  refine ⟨by decide, by decide, by decide, by decide⟩

/-- C8: constructing the adapter succeeds exactly for units in the
supported set {sat, usd}; on success the configured unit is stored;
any other unit is rejected with a construction-time error. -/
theorem init_ok_iff_supported (u : Unit) :
    ((∃ w, NWCWallet.init u = Except.ok w) ↔ u ∈ supported_units) ∧
    (∀ w, NWCWallet.init u = Except.ok w → w.unit = u) := by
  obtain ⟨h1, h2, h3, h4⟩ := init_eval
  constructor
  · cases u <;> simp [h1, h2, h3, h4, supported_units]
  · intro w h
    cases u
    · rw [h1] at h; injection h with h'; subst h'; rfl
    · rw [h3] at h; exact Except.noConfusion h
    · rw [h2] at h; injection h with h'; subst h'; rfl
    · rw [h4] at h; exact Except.noConfusion h

/-- C8 witness: the constructor applied to `sat`. -/
theorem init_ok_iff_supported_witness :
    ((∃ w, NWCWallet.init Unit.sat = Except.ok w) ↔ Unit.sat ∈ supported_units) ∧
    (NWCWallet.mk Unit.sat).unit = Unit.sat :=
  ⟨(init_ok_iff_supported Unit.sat).1,
   (init_ok_iff_supported Unit.sat).2 ⟨Unit.sat⟩ (by decide)⟩

/-- C6: `get_invoice_status` and `get_payment_status` return identical
results for every client behaviour and checking identifier; both return
(never raising) a status whose `paid` is true exactly when the lookup
succeeds with a present, non-empty preimage; any lookup failure,
not-found included, yields `paid = false`. -/
theorem invoice_status_eq_payment_status (w : NWCWallet)
    (client : NWCClientModel) (checking_id : String) :
    ∃ st : PaymentStatus,
      w.get_invoice_status client checking_id = Except.ok st ∧
      w.get_payment_status client checking_id = Except.ok st ∧
      (st.paid = true ↔
        ∃ res, client.lookup_invoice ⟨checking_id⟩ = Except.ok res ∧
          ∃ p, res.preimage = some p ∧ p ≠ "") := by
  unfold NWCWallet.get_invoice_status NWCWallet.get_payment_status
  cases h : client.lookup_invoice ⟨checking_id⟩ with
  | ok res =>
    refine ⟨⟨res.preimage.isSome && res.preimage != some ""⟩,
      by simp, by simp, ?_⟩
    cases hp : res.preimage with
    | none => simp [hp]
    | some p => simp [hp]
  | error e =>
    cases e <;> exact ⟨⟨false⟩, by simp [handleAll], by simp [handleAll], by simp⟩

/-- C5 counterexample: the fee limit is not passed through.  With a client
whose payment response echoes back the entire request it received, two
adapter calls differing only in `fee_limit_msat` (1 versus 999999) deliver
the identical request — just the quote's payment-request string — to the
protocol client and produce identical results. -/
theorem pay_invoice_fee_limit_cex :
    NWCWallet.pay_invoice ⟨Unit.sat⟩ clientEcho fxId meltQuote1 1 =
      NWCWallet.pay_invoice ⟨Unit.sat⟩ clientEcho fxId meltQuote1 999999 ∧
    NWCWallet.pay_invoice ⟨Unit.sat⟩ clientEcho fxId meltQuote1 1 =
      Except.ok ⟨true, none, some ⟨Unit.sat, 2⟩, some "lnbc15u", none⟩ :=
  ⟨rfl, by decide⟩

/-- C5 amended: `pay_invoice` ignores `fee_limit_msat` entirely — the
protocol payment call receives only the quote's payment-request string, so
the result is unchanged under any change of the fee limit, and depends on
the client only through its responses to that exact payment request and
the quote's lookup request. -/
theorem pay_invoice_ignores_fee_limit (w : NWCWallet)
    (client client2 : NWCClientModel) (fx : FxModel) (quote : MeltQuote)
    (fl1 fl2 : Int)
    (hpay : client2.pay_invoice ⟨quote.request⟩ =
      client.pay_invoice ⟨quote.request⟩)
    (hlook : client2.lookup_invoice ⟨quote.checking_id⟩ =
      client.lookup_invoice ⟨quote.checking_id⟩) :
    w.pay_invoice client fx quote fl1 = w.pay_invoice client2 fx quote fl2 := by
  unfold NWCWallet.pay_invoice
  rw [hpay, hlook]

/-- C5 witness: two concrete fee limits, same result. -/
theorem pay_invoice_ignores_fee_limit_witness :
    NWCWallet.pay_invoice ⟨Unit.sat⟩ clientAllOk fxId meltQuote1 0 =
      NWCWallet.pay_invoice ⟨Unit.sat⟩ clientAllOk fxId meltQuote1 123 :=
  pay_invoice_ignores_fee_limit ⟨Unit.sat⟩ clientAllOk clientAllOk fxId
    meltQuote1 0 123 rfl rfl

/-- C2 counterexample: the protocol payment call succeeds (preimage
returned), the fee lookup also succeeds reporting 2000 msat of fees, but
the rate provider's conversion of the 2-sat fee fails — and the adapter
returns ok=false, although the payment itself succeeded. -/
theorem pay_invoice_c2_cex :
    clientFeePaid2000.pay_invoice ⟨meltQuote1.request⟩ =
      Except.ok ⟨"preimage1"⟩ ∧
    NWCWallet.pay_invoice ⟨Unit.sat⟩ clientFeePaid2000 fxDown meltQuote1 0 =
      Except.ok ⟨false, none, none, none,
        some "Failed to pay invoice due to: rate fetch failed"⟩ :=
  ⟨rfl, by decide⟩

/-- C2 amended: whenever the protocol payment call succeeds, `pay_invoice`
returns ok=true with that call's preimage in every case except a failing
rate conversion of a positive looked-up fee: a fee-lookup failure yields
fee 0 in the adapter's unit and still ok=true (a lookup failure never
fails the payment result); a looked-up fee flooring to ≤ 0 satoshis skips
conversion; a positive floored fee whose conversion succeeds is reported
converted. -/
theorem pay_invoice_ok_on_payment_success (w : NWCWallet)
    (client : NWCClientModel) (fx : FxModel) (quote : MeltQuote)
    (fee_limit_msat : Int) (pr : Nip47PayInvoiceResponse)
    (hpay : client.pay_invoice ⟨quote.request⟩ = Except.ok pr) :
    (∀ e, client.lookup_invoice ⟨quote.checking_id⟩ = Except.error e →
      w.pay_invoice client fx quote fee_limit_msat =
        Except.ok ⟨true, none, some ⟨w.unit, 0⟩, some pr.preimage, none⟩) ∧
    (∀ inv, client.lookup_invoice ⟨quote.checking_id⟩ = Except.ok inv →
      inv.fees_paid.fdiv 1000 ≤ 0 →
      w.pay_invoice client fx quote fee_limit_msat =
        Except.ok ⟨true, none, some ⟨w.unit, inv.fees_paid.fdiv 1000⟩,
          some pr.preimage, none⟩) ∧
    (∀ inv v, client.lookup_invoice ⟨quote.checking_id⟩ = Except.ok inv →
      0 < inv.fees_paid.fdiv 1000 →
      fx.from_sats (inv.fees_paid.fdiv 1000) w.unit = Except.ok v →
      w.pay_invoice client fx quote fee_limit_msat =
        Except.ok ⟨true, none, some ⟨w.unit, v⟩, some pr.preimage, none⟩) := by
  refine ⟨?_, ?_, ?_⟩
  · intro e he
    unfold NWCWallet.pay_invoice
    rw [hpay]
    simp [he]
  · intro inv hinv hle
    unfold NWCWallet.pay_invoice
    rw [hpay]
    simp only [ok_bind, hinv]
    rw [if_neg (by omega)]
    simp
  · intro inv v hinv hpos hv
    unfold NWCWallet.pay_invoice
    rw [hpay]
    simp only [ok_bind, hinv]
    rw [if_pos hpos]
    simp [hv]

/-- C2 witness: payment succeeds, lookup raises — result is ok=true with
the payment's preimage and a zero fee. -/
theorem pay_invoice_ok_on_payment_success_witness :
    NWCWallet.pay_invoice ⟨Unit.sat⟩ clientLookupFails fxId meltQuote1 0 =
      Except.ok ⟨true, none, some ⟨Unit.sat, 0⟩, some "preimage1", none⟩ :=
  (pay_invoice_ok_on_payment_success ⟨Unit.sat⟩ clientLookupFails fxId
    meltQuote1 0 ⟨"preimage1"⟩ rfl).1 (Exc.generic "lookup down") rfl

/-- C9: a successful lookup reporting `0 ≤ fees_paid < 1000` msat floors to
0 satoshis, the returned fee Amount is 0 in the adapter's unit, and the
rate provider is never consulted — the result is the same for every rate
provider, a failing one included. -/
theorem pay_invoice_subsat_fee_zero (w : NWCWallet) (client : NWCClientModel)
    (quote : MeltQuote) (fee_limit_msat : Int) (pr : Nip47PayInvoiceResponse)
    (inv : Nip47LookupInvoiceResponse)
    (hpay : client.pay_invoice ⟨quote.request⟩ = Except.ok pr)
    (hlook : client.lookup_invoice ⟨quote.checking_id⟩ = Except.ok inv)
    (h0 : 0 ≤ inv.fees_paid) (h1 : inv.fees_paid < 1000) :
    inv.fees_paid.fdiv 1000 = 0 ∧
    ∀ fx : FxModel, w.pay_invoice client fx quote fee_limit_msat =
      Except.ok ⟨true, none, some ⟨w.unit, 0⟩, some pr.preimage, none⟩ := by
  have hz : inv.fees_paid.fdiv 1000 = 0 := by
    rw [Int.fdiv_eq_ediv _ (by decide : (0:Int) ≤ 1000)]
    omega
  refine ⟨hz, fun fx => ?_⟩
  unfold NWCWallet.pay_invoice
  rw [hpay]
  simp [hlook, hz]

/-- C9 witness: 999 msat of fees paid yields a zero fee even with a rate
provider that always fails. -/
theorem pay_invoice_subsat_fee_zero_witness :
    (999 : Int).fdiv 1000 = 0 ∧
    NWCWallet.pay_invoice ⟨Unit.sat⟩ clientFeePaid999 fxDown meltQuote1 0 =
      Except.ok ⟨true, none, some ⟨Unit.sat, 0⟩, some "preimage1", none⟩ := by
  have h := pay_invoice_subsat_fee_zero ⟨Unit.sat⟩ clientFeePaid999 meltQuote1 0
    ⟨"preimage1"⟩ ⟨some "preimage1", 999⟩ rfl rfl (by decide) (by decide)
  exact ⟨h.1, h.2 fxDown⟩

/-- C3: when `get_info` reports a method set missing a required method,
`status` returns balance 0 with the capability error message and never
consults `get_balance` (the result is unchanged under any replacement of
the client's `get_balance`); when all required methods are present and the
balance query and rate conversion succeed, `status` returns a success
response (no error message) whose balance is `from_sats` of the floored
satoshi balance. -/
theorem status_capability_gate (w : NWCWallet) (client : NWCClientModel)
    (fx : FxModel) (info : Nip47InfoResponse)
    (hinfo : client.get_info = Except.ok info) :
    (required_nip47_methods.all (fun m => info.methods.contains m) = false →
      w.status client fx = Except.ok
        ⟨some ("NWC does not support all required methods. Supports: "
          ++ toString info.methods), 0⟩ ∧
      ∀ g, w.status { client with get_balance := g } fx =
        w.status client fx) ∧
    (required_nip47_methods.all (fun m => info.methods.contains m) = true →
      ∀ b v, client.get_balance = Except.ok b →
        fx.from_sats (b.balance.fdiv 1000) w.unit = Except.ok v →
        w.status client fx = Except.ok ⟨none, v⟩) := by
  constructor
  · intro hmiss
    have hcond :
        ¬ (required_nip47_methods.all (fun m => info.methods.contains m)) = true := by
      rw [hmiss]
      exact Bool.false_ne_true
    constructor
    · unfold NWCWallet.status
      rw [hinfo]
      simp only [ok_bind]
      rw [if_pos hcond]
      rfl
    · intro g
      unfold NWCWallet.status
      simp only [hinfo, ok_bind]
      rw [if_pos hcond, if_pos hcond]
  · intro hall b v hb hv
    unfold NWCWallet.status
    rw [hinfo]
    simp only [ok_bind]
    rw [if_neg (not_not_intro hall)]
    simp [hb, hv]

/-- C3 witness: a client missing `pay_invoice` from its capability set. -/
theorem status_capability_gate_witness :
    NWCWallet.status ⟨Unit.sat⟩ clientMissingPay fxId = Except.ok
      ⟨some ("NWC does not support all required methods. Supports: "
        ++ toString ["get_info", "get_balance", "make_invoice",
                     "lookup_invoice"]), 0⟩ ∧
    NWCWallet.status ⟨Unit.sat⟩
        { clientMissingPay with
          get_balance := Except.error (Exc.generic "x") } fxId =
      NWCWallet.status ⟨Unit.sat⟩ clientMissingPay fxId := by
  have h := (status_capability_gate ⟨Unit.sat⟩ clientMissingPay fxId
    ⟨["get_info", "get_balance", "make_invoice", "lookup_invoice"]⟩ rfl).1
    (by decide)
  exact ⟨h.1, h.2 (Except.error (Exc.generic "x"))⟩

/-- C4: for every behaviour of the protocol client and rate provider,
`status`, `create_invoice`, `pay_invoice`, `get_invoice_status` and
`get_payment_status` never raise: each returns a result value, with any
result carrying an error message having balance 0 (status), any ok=false
result carrying an error message (invoice creation and payment), and a
failed lookup yielding paid=false (the two status lookups). -/
theorem operations_never_raise (w : NWCWallet) (client : NWCClientModel)
    (fx : FxModel) (amount : Amount) (memo : Option String)
    (dh : Option (List Nat)) (ud : Option String) (quote : MeltQuote)
    (fee_limit_msat : Int) (checking_id : String) :
    (∃ r, w.status client fx = Except.ok r ∧
      (r.error_message ≠ none → r.balance = 0)) ∧
    (∃ r, w.create_invoice client fx amount memo dh ud = Except.ok r ∧
      (r.ok = false → r.error_message ≠ none)) ∧
    (∃ r, w.pay_invoice client fx quote fee_limit_msat = Except.ok r ∧
      (r.ok = false → r.error_message ≠ none)) ∧
    (∃ r, w.get_invoice_status client checking_id = Except.ok r ∧
      ((∃ e, client.lookup_invoice ⟨checking_id⟩ = Except.error e) →
        r.paid = false)) ∧
    (∃ r, w.get_payment_status client checking_id = Except.ok r ∧
      ((∃ e, client.lookup_invoice ⟨checking_id⟩ = Except.error e) →
        r.paid = false)) := by
  refine ⟨?_, ?_, ?_, ?_, ?_⟩
  · unfold NWCWallet.status
    cases hi : client.get_info with
    | error e => cases e <;> simp [hi]
    | ok info =>
      simp only [hi, ok_bind]
      by_cases hall :
          (required_nip47_methods.all (fun m => info.methods.contains m)) = true
      · rw [if_neg (not_not_intro hall)]
        cases hb : client.get_balance with
        | error e => cases e <;> simp [hb]
        | ok b =>
          simp only [hb, ok_bind]
          cases hf : fx.from_sats (b.balance.fdiv 1000) w.unit with
          | error e => cases e <;> simp [hf]
          | ok v => simp [hf]
      · rw [if_pos hall]
        simp
  · unfold NWCWallet.create_invoice NWCWallet.amt_to_sat
    cases ht : fx.to_sats amount.amount w.unit with
    | error e => cases e <;> simp [ht]
    | ok amount_sat =>
      simp only [ht, ok_bind]
      cases hc : client.create_invoice ⟨amount_sat * 1000⟩ with
      | error e => cases e <;> simp [hc]
      | ok res => simp [hc]
  · unfold NWCWallet.pay_invoice
    cases hp : client.pay_invoice ⟨quote.request⟩ with
    | error e => cases e <;> simp [hp]
    | ok pr =>
      simp only [hp, ok_bind]
      cases hl : client.lookup_invoice ⟨quote.checking_id⟩ with
      | error e => simp [hl]
      | ok inv =>
        simp only [hl]
        by_cases hpos : 0 < inv.fees_paid.fdiv 1000
        · rw [if_pos hpos]
          cases hf : fx.from_sats (inv.fees_paid.fdiv 1000) w.unit with
          | error e => cases e <;> simp [hf]
          | ok v => simp [hf]
        · rw [if_neg hpos]
          simp
  · unfold NWCWallet.get_invoice_status
    cases hl : client.lookup_invoice ⟨checking_id⟩ with
    | error e => cases e <;> simp [hl, handleAll]
    | ok res => simp [hl]
  · unfold NWCWallet.get_payment_status
    cases hl : client.lookup_invoice ⟨checking_id⟩ with
    | error e => cases e <;> simp [hl, handleAll]
    | ok res => simp [hl]

/-- C7: when the rate provider converts the requested amount to
`amount_sat` satoshis and the protocol client's invoice creation succeeds,
`create_invoice` requests exactly `amount_sat * 1000` millisatoshis — its
result depends on the client only through that exact request — and
returns ok=true with the returned payment hash as checking id and the
returned invoice string as payment request. -/
theorem create_invoice_exact_request (w : NWCWallet)
    (client client2 : NWCClientModel) (fx : FxModel) (amount : Amount)
    (memo : Option String) (dh : Option (List Nat)) (ud : Option String)
    (amount_sat : Int) (res : Nip47CreateInvoiceResponse)
    (hts : fx.to_sats amount.amount w.unit = Except.ok amount_sat)
    (hci : client.create_invoice ⟨amount_sat * 1000⟩ = Except.ok res)
    (hagree : client2.create_invoice ⟨amount_sat * 1000⟩ =
      client.create_invoice ⟨amount_sat * 1000⟩) :
    w.create_invoice client fx amount memo dh ud =
      Except.ok ⟨true, some res.payment_hash, some res.invoice, none⟩ ∧
    w.create_invoice client2 fx amount memo dh ud =
      w.create_invoice client fx amount memo dh ud := by
  unfold NWCWallet.create_invoice NWCWallet.amt_to_sat
  constructor
  · rw [hts]
    simp [hci]
  · rw [hts]
    simp [hagree]

/-- C7 witness: the spec scenario — `Amount(sat, 1000)` against a
cooperating client. -/
theorem create_invoice_exact_request_witness :
    NWCWallet.create_invoice ⟨Unit.sat⟩ clientAllOk fxId ⟨Unit.sat, 1000⟩
        none none none =
      Except.ok ⟨true, some "payhash1", some "lnbcinvoice1", none⟩ :=
  (create_invoice_exact_request ⟨Unit.sat⟩ clientAllOk clientAllOk fxId
    ⟨Unit.sat, 1000⟩ none none none 1000 ⟨"payhash1", "lnbcinvoice1"⟩
    rfl rfl rfl).1

/-- C1: evaluation at the failing input.  With the `sat` unit, an identity
rate provider, an invoice of 1500 msat and a fee reserve of 1 msat, the
quote is amount 1 sat and fee 0 sat: both are floored by `// 1000` before
the (vacuous, same-unit) `round="up"` conversion, while the ceilings of
1 msat and 1500 msat in satoshis are 1 and 2 respectively — the quoted
values are below the true obligation. -/
theorem get_payment_quote_floors :
    NWCWallet.get_payment_quote ⟨Unit.sat⟩ fxId decInvoice1500
        (fun _ => 1) mq1500 =
      Except.ok ⟨"h1500", ⟨Unit.sat, 0⟩, ⟨Unit.sat, 1⟩⟩ ∧
    -((-1 : Int).fdiv 1000) = 1 ∧ -((-1500 : Int).fdiv 1000) = 2 :=
  ⟨by decide, by decide, by decide⟩

/-- C10: `get_payment_quote` is not wrapped in a failure-to-result
translation — a failing `from_sats` rate conversion of the invoice amount
propagates to the caller as a raised error, for any invoice that decodes
with a non-zero amount. -/
theorem quote_propagates_rate_failure (w : NWCWallet) (fx : FxModel)
    (dec : DecoderModel) (fee_res : Int → Int) (mq : PostMeltQuoteRequest)
    (inv : Bolt11Invoice) (n : Int) (e : Exc)
    (hmpp : mq.is_mpp = false)
    (hdec : dec.decode mq.request = Except.ok inv)
    (hamt : inv.amount_msat = some n) (hn : ¬ n = 0)
    (hfx : fx.from_sats (n.fdiv 1000) w.unit = Except.error e) :
    w.get_payment_quote fx dec fee_res mq = Except.error e := by
  unfold NWCWallet.get_payment_quote
  simp [hmpp, hdec, assert_amount, hamt, hn, hfx]

/-- C10 witness: a failing rate provider makes quoting raise. -/
theorem quote_propagates_rate_failure_witness :
    NWCWallet.get_payment_quote ⟨Unit.sat⟩ fxDown decInvoice1500
        (fun _ => 1) mq1500 =
      Except.error (Exc.generic "rate fetch failed") :=
  quote_propagates_rate_failure ⟨Unit.sat⟩ fxDown decInvoice1500 (fun _ => 1)
    mq1500 ⟨some 1500, "h1500"⟩ 1500 (Exc.generic "rate fetch failed")
    rfl rfl rfl (by decide) rfl

end Nutshell

